import Mathlib

/-!
# Verification of the medical consultation validator and agents

Shallow embedding of the conversation-completeness validator
(`backend/app/agents/validation_agent.py`), the report generator
(`backend/app/agents/doctor_agent.py`), the question-agent template table
(`backend/app/agents/question_agent.py`) and the category-rotation logic
of `Mistral.py`, together with proofs about them.

Python strings are modelled as Lean `String`, conversation histories as
`List String`, regex keyword alternations as lists of word/phrase literals
matched with explicit `\b` word-boundary semantics, and floats (the
confidence values, all exact decimals) as rationals.
-/

set_option maxHeartbeats 1000000

namespace MedAssist

/-- Python `sep.join(xs)`. -/
def joinSep (sep : String) : List String → String
  | [] => ""
  | [x] => x
  | x :: xs => x ++ sep ++ joinSep sep (xs)

/-- Python slicing `xs[-k:]` (for `k > 0`). -/
def lastN (k : Nat) (xs : List String) : List String :=
  xs.drop (xs.length - k)

/-- ASCII word character, as in the regex `\b` boundary (`\w`). -/
def isWordChar (c : Char) : Bool := c.isAlpha || c.isDigit || c = '_'

/-- Whitespace character, as in the regex `\s`. -/
def isSpaceChar (c : Char) : Bool := c = ' ' || c = '\t' || c = '\n' || c = '\r'

/-- Lowercased character list of a string (models `str.lower` / `re.IGNORECASE`). -/
def lowerChars (s : String) : List Char := s.toList.map Char.toLower

/-- Does `sub` occur at the head of `cs`? -/
def startsWithCL : List Char → List Char → Bool
  | _, [] => true
  | [], _ :: _ => false
  | c :: cs, d :: ds => c = d && startsWithCL cs ds

/-- Python substring test `sub in s` on character lists. -/
def containsSub : List Char → List Char → Bool
  | [], sub => sub.isEmpty
  | c :: rest, sub => startsWithCL (c :: rest) sub || containsSub rest sub

/-- Consume the literal word `w` at the head of `cs`, returning the remainder. -/
def dropWord : List Char → List Char → Option (List Char)
  | cs, [] => some cs
  | [], _ :: _ => none
  | c :: cs, d :: ds => if c = d then dropWord cs ds else none

/-- Consume one-or-more whitespace characters (regex `\s+`). -/
def dropSpaces1 : List Char → Option (List Char)
  | [] => none
  | c :: cs => if isSpaceChar c then some (cs.dropWhile isSpaceChar) else none

/-- Match a phrase (literal words joined by `\s+`) at the head of `cs`,
returning the remainder after the match. -/
def matchPhrase : List String → List Char → Option (List Char)
  | [], cs => some cs
  | [w], cs => dropWord cs w.toList
  | w :: w2 :: ws, cs =>
    match dropWord cs w.toList with
    | none => none
    | some rest =>
      match dropSpaces1 rest with
      | none => none
      | some rest2 => matchPhrase (w2 :: ws) rest2

/-- Word-ness of the last character of a phrase. -/
def phraseLastWordish (alt : List String) : Bool :=
  ((alt.getLast?.bind (fun w => w.toList.getLast?)).map isWordChar).getD false

/-- Does the alternative `alt`, anchored by `\b` on both sides, match at the
current position?  `prev` is the character just before the position. -/
def altMatchesAt (prev : Option Char) (alt : List String) (cs : List Char) : Bool :=
  match matchPhrase alt cs with
  | none => false
  | some rest =>
    let prevW := (prev.map isWordChar).getD false
    let headW := (cs.head?.map isWordChar).getD false
    let restW := (rest.head?.map isWordChar).getD false
    (prevW != headW) && (phraseLastWordish alt != restW)

/-- Scan all positions of `cs` for a `\b`-anchored match of `alt`. -/
def searchFrom (alt : List String) : Option Char → List Char → Bool
  | _, [] => false
  | prev, c :: cs => altMatchesAt prev alt (c :: cs) || searchFrom alt (some c) cs

/-- `re.search` of an alternation of word/phrase literals wrapped in
`\b(...)\b` with `re.IGNORECASE`: true iff some alternative matches at some
position of the lowercased text with word boundaries on both sides. -/
def patternSearch (pat : List (List String)) (text : String) : Bool :=
  pat.any (fun alt => searchFrom alt none (lowerChars text))

/-! ## Keyword patterns of `RuleBasedValidator.__init__`

Each pattern is the alternation inside the compiled `\b(...)\b` regex;
multi-word entries correspond to `\s+` in the source. -/

/-- `self.symptom_pattern`. -/
def symptomKeywords : List (List String) :=
  [["pain"], ["ache"], ["hurt"], ["sore"], ["tender"], ["discomfort"], ["fever"],
   ["hot"], ["chills"], ["shiver"], ["sick"], ["ill"], ["unwell"], ["cough"],
   ["cold"], ["congestion"], ["stuffy"], ["runny"], ["shortness"], ["breath"],
   ["breathless"], ["wheezing"], ["sore", "throat"], ["throat"], ["hoarse"],
   ["nausea"], ["vomit"], ["diarrhea"], ["constipation"], ["stomach"], ["belly"],
   ["abdomen"], ["cramp"], ["headache"], ["dizzy"], ["dizziness"], ["vertigo"],
   ["faint"], ["fatigue"], ["tired"], ["weakness"], ["weak"], ["rash"], ["itch"],
   ["itching"], ["burn"], ["burning"], ["swell"], ["swelling"], ["bleed"],
   ["bleeding"], ["symptom"], ["symptoms"], ["issue"], ["problem"], ["trouble"]]

/-- `self.duration_pattern`. -/
def durationKeywords : List (List String) :=
  [["yesterday"], ["today"], ["tonight"], ["afternoon"], ["evening"], ["morning"],
   ["continuously"], ["continuous"], ["recently"], ["started"], ["ongoing"],
   ["chronic"], ["minute"], ["minutes"], ["months"], ["morning"], ["second"],
   ["week"], ["weeks"], ["month"], ["year"], ["years"], ["began"], ["since"],
   ["acute"], ["when"], ["ago"], ["just"], ["now"], ["hour"], ["hours"], ["day"],
   ["days"], ["night"]]

/-- `self.severity_pattern`. -/
def severityKeywords : List (List String) :=
  [["severe"], ["mild"], ["moderate"], ["intense"], ["worse"], ["worsening"],
   ["better"], ["improving"], ["sharp"], ["dull"], ["throbbing"], ["aching"],
   ["terrible"], ["extreme"], ["slight"], ["minimal"], ["unbearable"],
   ["manageable"], ["tolerable"], ["out", "of"], ["scale"], ["level"],
   ["pain", "level"], ["10"], ["9"], ["8"], ["7"], ["6"], ["5"], ["4"], ["3"],
   ["2"], ["1"], ["/10"]]

/-- `self.location_pattern`. -/
def locationKeywords : List (List String) :=
  [["chest"], ["head"], ["back"], ["leg"], ["arm"], ["stomach"], ["throat"],
   ["left"], ["right"], ["upper"], ["lower"], ["side"], ["neck"], ["shoulder"],
   ["abdomen"], ["belly"], ["hip"], ["knee"], ["foot"], ["hand"], ["jaw"],
   ["ear"], ["eye"], ["eyes"], ["face"], ["joint"], ["joints"], ["front"],
   ["rear"], ["middle"], ["center"], ["top"], ["bottom"], ["inner"], ["outer"]]

/-- `self.history_pattern`. -/
def historyKeywords : List (List String) :=
  [["history"], ["condition"], ["disease"], ["medication"], ["medicine"],
   ["drug"], ["drugs"], ["allergy"], ["allergic"], ["surgery"], ["operation"],
   ["removed"], ["diagnosed"], ["treatment"], ["treat"], ["treated"], ["chronic"],
   ["diabetes"], ["hypertension"], ["blood", "pressure"], ["asthma"], ["cancer"],
   ["heart"], ["migraine"], ["arthritis"], ["took"], ["take"], ["taking"],
   ["prescription"], ["hospitalized"], ["hospital"], ["emergency"], ["admitted"],
   ["before"], ["previous"], ["past"], ["had"]]

/-! ## The rule-based validator -/

/-- The five boolean category flags computed by `_analyze_information_fast`
(the value type of the `found_info` dict). -/
structure Flags where
  symptoms : Bool
  duration : Bool
  severity : Bool
  location : Bool
  history : Bool
deriving DecidableEq, Repr

/-- The keys of the `found_info` dict returned by `_analyze_information_fast`. -/
def flagKeys : List String := ["symptoms", "duration", "severity", "location", "history"]

/-- The regex analysis in the body of `_analyze_information_fast`
(`combined = " ".join(conversation_history)` then one search per category),
without the cache layer, which is modelled separately. -/
def analyzeInformationPure (conversationHistory : List String) : Flags :=
  let combined := joinSep " " conversationHistory
  { symptoms := patternSearch symptomKeywords combined
    duration := patternSearch durationKeywords combined
    severity := patternSearch severityKeywords combined
    location := patternSearch locationKeywords combined
    history := patternSearch historyKeywords combined }

/-- `InformationStatus` enum. -/
inductive InformationStatus where
  | insufficient
  | gathering
  | complete
  | uncertain
deriving DecidableEq, Repr

/-- `ValidationResult` dataclass; `confidence` (a Python float with exact
decimal values) is modelled as a rational. -/
structure ValidationResult where
  status : InformationStatus
  shouldContinueAsking : Bool
  missingCategory : String
  confidence : ℚ
  reasoning : String
deriving DecidableEq, Repr

/-- `RuleBasedValidator._suggest_missing_category_fast`. -/
def suggestMissingCategoryFast (numExchanges : Nat) (history : List String) : String :=
  if numExchanges = 1 then
    "duration of symptoms"
  else if numExchanges = 2 then
    let combined := joinSep " " (lastN 2 history)
    if !patternSearch durationKeywords combined then "duration"
    else "symptom details"
  else if numExchanges = 3 then
    let combined := joinSep " " history
    if containsSub (lowerChars combined) "pain".toList ||
       containsSub (lowerChars combined) "ache".toList then
      if !patternSearch severityKeywords combined then "pain severity"
      else if !patternSearch locationKeywords combined then "pain location"
      else "additional details"
    else "additional details"
  else if numExchanges = 4 then
    let combined := joinSep " " history
    if !patternSearch severityKeywords combined then "severity scale"
    else if !patternSearch historyKeywords combined then "medical history"
    else "additional context"
  else
    let combined := joinSep " " history
    if !patternSearch historyKeywords combined then "medical history"
    else "additional information"

/-- Rules 5-7 and the default branch of `RuleBasedValidator.validate`
(the straight-line code after the `has_pain` block). -/
def validateTail (numExchanges : Nat) (history : List String) (fi : Flags) :
    ValidationResult :=
  if 5 ≤ numExchanges ∧ fi.history = false then
    ⟨.gathering, true, "medical_history", 85/100, "Beneficial to have medical history"⟩
  else if fi.symptoms = true ∧ fi.duration = true ∧ 4 ≤ numExchanges then
    ⟨.complete, false, "", 1, "Sufficient information gathered"⟩
  else if 4 ≤ numExchanges then
    ⟨.uncertain, true, "clinical_context", 6/10, "Use AI validator for final decision"⟩
  else
    ⟨.gathering, true, suggestMissingCategoryFast numExchanges history, 85/100,
     "Continue gathering information"⟩

/-- `RuleBasedValidator.validate` (with the analysis taken uncached; the
cache layer is modelled and examined separately).  Note that the source's
`has_pain = 'pain' in found_info or 'ache' in found_info` is a membership
test among the KEYS of the `found_info` dict, rendered here as
`flagKeys.contains`. -/
def validate (minExchanges : Nat) (conversationHistory : List String) :
    ValidationResult :=
  let numExchanges := conversationHistory.length
  if numExchanges < minExchanges then
    ⟨.insufficient, true,
     suggestMissingCategoryFast numExchanges conversationHistory, 1,
     "Need at least " ++ toString minExchanges ++ " exchanges. Currently: " ++
       toString numExchanges⟩
  else
    let fi := analyzeInformationPure conversationHistory
    if fi.symptoms = false then
      ⟨.insufficient, true, "symptoms", 1, "No specific symptoms identified"⟩
    else if fi.duration = false then
      ⟨.insufficient, true, "duration", 1, "No symptom duration provided"⟩
    else if flagKeys.contains "pain" || flagKeys.contains "ache" then
      if fi.severity = false && fi.location = false then
        ⟨.gathering, true, "severity or location", 95/100, "Need pain severity or location"⟩
      else if fi.severity = false then
        ⟨.gathering, true, "severity", 9/10, "Need pain severity level"⟩
      else if fi.location = false then
        ⟨.gathering, true, "location", 9/10, "Need pain location"⟩
      else validateTail numExchanges conversationHistory fi
    else validateTail numExchanges conversationHistory fi

/-! ## The analysis cache of `_analyze_information_fast` -/

/-- The `_analysis_cache` dict, as an association list. The Python key
`str(hash(tuple(...)))` is idealized as the truncated message list itself,
i.e. hashing is treated as injective (collisions could only lose further
precision). -/
abbrev AnalysisCache := List (List String × Flags)

/-- Dictionary lookup in the analysis cache. -/
def findCache (key : List String) : AnalysisCache → Option Flags
  | [] => none
  | (k, f) :: rest => if key = k then some f else findCache key rest

/-- `conversation_history[-5:] if len(conversation_history) > 5 else
conversation_history`: the cache key of `_analyze_information_fast`. -/
def cacheKeyOf (h : List String) : List String :=
  if h.length > 5 then h.drop (h.length - 5) else h

/-- `RuleBasedValidator._analyze_information_fast` with its cache:
look up the key, on a miss run the regex analysis and store it. -/
def analyzeInformationFast (h : List String) (cache : AnalysisCache) :
    Flags × AnalysisCache :=
  let key := cacheKeyOf h
  match findCache key cache with
  | some f => (f, cache)
  | none =>
    let f := analyzeInformationPure h
    (f, (key, f) :: cache)

/-- A sequence of `_analyze_information_fast` calls on one validator
instance, threading the cache, returning the flags of each call. -/
def runAnalyses : List (List String) → AnalysisCache → List Flags
  | [], _ => []
  | h :: rest, cache =>
    let p := analyzeInformationFast h cache
    p.1 :: runAnalyses rest p.2

/-! ## `DoctorAgent` report generation -/

/-- `conversation_history[0] if conversation_history else "Patient consultation"`. -/
def chiefComplaintOf (h : List String) : String :=
  match h with
  | [] => "Patient consultation"
  | m :: _ => m

/-- The `report_parts` list of `DoctorAgent._generate_template_report`. -/
def templateReportParts (chief : String) : List String :=
  ["MEDICAL ASSESSMENT REPORT",
   String.mk (List.replicate 50 '='),
   "",
   "CHIEF COMPLAINT",
   chief,
   "",
   "HISTORY OF PRESENT ILLNESS",
   "Based on the patient\x27s description:",
   "- Patient reported: " ++ chief,
   "- Duration and severity details were discussed during consultation",
   "- Associated symptoms and relevant history were obtained",
   "",
   "RECOMMENDATIONS",
   "1. Continue monitoring symptoms",
   "2. Seek immediate medical attention if symptoms worsen significantly",
   "3. Consider follow-up evaluation with healthcare provider",
   "4. Keep detailed record of symptom progression",
   "",
   "IMPORTANT DISCLAIMER",
   "This assessment is based on patient-reported information only and is NOT",
   "a substitute for professional medical evaluation. Please consult with a",
   "licensed healthcare provider for definitive diagnosis and treatment.",
   "",
   "CONFIDENCE LEVEL",
   "Moderate - Limited by inability to perform physical examination",
   "",
   "This report should be reviewed by a qualified healthcare professional",
   "before any treatment decisions are made."]

/-- `DoctorAgent._generate_template_report` (the `"\n".join(report_parts)`
computation; the `_template_cache` only replays strings this computation
previously returned, so it is omitted). -/
def generateTemplateReport (h : List String) : String :=
  joinSep "\n" (templateReportParts (chiefComplaintOf h))

/-- `DoctorAgent.generate_report`.  The MedGemma attempt is modelled by its
outcome `aiReport`: `none` when the service is unavailable, raised, or
returned `None`; `some r` when `_generate_dynamic_report` returned the
string `r`.  The source returns `r` only when truthy (`if report:`),
otherwise falls back to the template report. -/
def generateReport (aiReport : Option String) (h : List String) : String :=
  match aiReport with
  | some r => if r = "" then generateTemplateReport h else r
  | none => generateTemplateReport h

/-! ## `QuestionAgent.QUESTION_TEMPLATES` -/

/-- The static per-category fallback question table. -/
def questionTemplates : List (String × List String) :=
  [("symptoms",
    ["Can you describe your main symptom in more detail?",
     "What other symptoms are you experiencing?",
     "Have you noticed any other changes in how you feel?"]),
   ("duration",
    ["When did you first notice this symptom?",
     "How long have you been experiencing this?",
     "Did this start suddenly or gradually?"]),
   ("severity",
    ["On a scale of 1 to 10, how bad is your \x7bsymptom\x7d?",
     "How much does this affect your daily activities?",
     "Is it getting worse, staying the same, or improving?"]),
   ("location",
    ["Can you point to where you feel the \x7bsymptom\x7d?",
     "Which part of your body is affected?",
     "Is the \x7bsymptom\x7d in one area or spread out?"]),
   ("medical_history",
    ["Do you have any medical conditions or chronic diseases?",
     "Are you currently taking any medications?",
     "Are you allergic to any medications or substances?"])]

/-- The keys of `QUESTION_TEMPLATES`. -/
def questionTemplateKeys : List String := questionTemplates.map Prod.fst

/-! ## Category rotation of `Mistral.py`
(`TransformerValidationAgent.evaluate_completeness`) -/

/-- The fixed category list used for forced progression. -/
def mistralCategories : List String :=
  ["symptom details", "duration and severity", "medical history", "none"]

/-- The `progression` dict mapping `num_exchanges` to a category
(`progression.get(num_exchanges, "none")`). -/
def mistralProgression (numExchanges : Nat) : String :=
  match numExchanges with
  | 1 => "symptom details"
  | 2 => "symptom details"
  | 3 => "duration and severity"
  | 4 => "duration and severity"
  | 5 => "medical history"
  | 6 => "medical history"
  | 7 => "none"
  | _ => "none"

/-- Forced progression in the AI branch: after replacing `"unclear"`, if the
parsed category equals `last_category` and more than 2 exchanges have
passed, rotate it — but only when it occurs in `mistralCategories`. -/
def forceProgressionAI (aiMissing : String) (lastCategory : Option String)
    (numExchanges : Nat) : String :=
  let m := if aiMissing = "unclear" then "additional symptoms information" else aiMissing
  if some m = lastCategory ∧ 2 < numExchanges then
    match mistralCategories.indexOf? m with
    | some idx => mistralCategories.getD (min (idx + 1) (mistralCategories.length - 1)) m
    | none => m
  else m

/-- Forced progression in the rule-based branch
(`idx = categories.index(missing) if missing in categories else 0`). -/
def forceProgressionRule (missing : String) (lastCategory : Option String)
    (numExchanges : Nat) : String :=
  if some missing = lastCategory ∧ 2 < numExchanges then
    let idx := (mistralCategories.indexOf? missing).getD 0
    mistralCategories.getD (min (idx + 1) (mistralCategories.length - 1)) missing
  else missing

/-- One rule-based-branch call of `evaluate_completeness`: compute the
progression category, apply forced progression, record it as
`last_category`. -/
def mistralRuleStep (numExchanges : Nat) (lastCategory : Option String) :
    String × Option String :=
  let missing := forceProgressionRule (mistralProgression numExchanges) lastCategory numExchanges
  (missing, some missing)

/-! ## JSON extraction and fallback of `HybridValidationAgent._ai_validate` -/

/-- The fields `_ai_validate` reads from the parsed JSON dict, each `none`
when the key is absent (the `dict.get` default applies). -/
structure ParsedValidation where
  shouldContinueAsking : Option Bool
  missingCategory : Option String
  confidence : Option ℚ
  reasoning : Option String

/-- The fallback `ValidationResult` returned when extraction or parsing of
the model response fails. -/
def defaultAIFallback : ValidationResult :=
  ⟨.gathering, true, "additional information", 1/2, "Continue gathering information"⟩

/-- `re.search(r)` of an opening-brace, `.*` with DOTALL, closing-brace:
the (greedy) match runs from the first opening brace to the last closing
brace, and exists iff some closing brace follows the first opening brace. -/
def extractJsonObject (s : String) : Option String :=
  let cs := s.toList
  match cs.indexOf? '\x7b' with
  | none => none
  | some i =>
    match cs.reverse.indexOf? '\x7d' with
    | none => none
    | some rj =>
      let j := cs.length - 1 - rj
      if i < j then some (String.mk ((cs.drop i).take (j + 1 - i))) else none

/-- The response-handling tail of `HybridValidationAgent._ai_validate`:
regex-extract a JSON object from the model response, parse it with the
supplied parser (`none` models a `json.loads` failure or a non-dict value,
whose exceptions the source catches), build the `ValidationResult` with the
`dict.get` defaults, and fall back to `defaultAIFallback` otherwise. -/
def aiValidateResponse (parse : String → Option ParsedValidation)
    (response : String) : ValidationResult :=
  match extractJsonObject response with
  | some matched =>
    match parse matched with
    | some d =>
      let shouldCont := d.shouldContinueAsking.getD true
      ⟨(if shouldCont = false then .complete else .gathering),
       shouldCont,
       d.missingCategory.getD "additional information",
       d.confidence.getD (7/10),
       d.reasoning.getD "AI validation"⟩
    | none => defaultAIFallback
  | none => defaultAIFallback

/-! ## Auxiliary definitions for the statements -/

/-- The possible return values of `_suggest_missing_category_fast`. -/
def suggestionCategories : List String :=
  ["duration of symptoms", "duration", "symptom details", "pain severity",
   "pain location", "additional details", "severity scale", "medical history",
   "additional context", "additional information"]

/-- Every `missing_category` string `validate` can actually return (the
`severity` / `location` labels of the unreachable pain branch excluded). -/
def validatorEmittableCategories : List String :=
  ["symptoms", "duration", "medical_history", "clinical_context", "",
   "duration of symptoms", "symptom details", "pain severity", "pain location",
   "additional details", "severity scale", "medical history",
   "additional context", "additional information"]

/-- A cache state whose every entry holds exactly the pure analysis of its
key (the states reachable when all queried histories have at most 5
messages). -/
def goodCache (c : AnalysisCache) : Prop :=
  ∀ k f, (k, f) ∈ c → f = analyzeInformationPure k

/-! ## Helper lemmas -/

lemma suggestMissing_mem (n : Nat) (h : List String) :
    suggestMissingCategoryFast n h ∈ suggestionCategories := by
  simp only [suggestMissingCategoryFast]
  split_ifs <;> simp [suggestionCategories]

lemma suggestMissing_ne_empty (n : Nat) (h : List String) :
    suggestMissingCategoryFast n h ≠ "" := by
  intro hc
  have hm := suggestMissing_mem n h
  rw [hc] at hm
  revert hm
  decide

lemma suggestMissing_mem_emittable (n : Nat) (h : List String) :
    suggestMissingCategoryFast n h ∈ validatorEmittableCategories := by
  simp only [suggestMissingCategoryFast]
  split_ifs <;> simp [validatorEmittableCategories]

lemma joinSep_length_ge (sep x : String) (xs : List String) :
    x.length ≤ (joinSep sep (x :: xs)).length := by
  cases xs with
  | nil => simp [joinSep]
  | cons y l => simp [joinSep, String.length_append]; omega

lemma generateTemplateReport_ne_empty (h : List String) :
    generateTemplateReport h ≠ "" := by
  intro hc
  have hlen : ("MEDICAL ASSESSMENT REPORT" : String).length ≤
      (generateTemplateReport h).length := joinSep_length_ge _ _ _
  rw [hc] at hlen
  revert hlen
  decide

lemma findCache_mem {key : List String} {c : AnalysisCache} {f : Flags}
    (hf : findCache key c = some f) : (key, f) ∈ c := by
  induction c with
  | nil => simp [findCache] at hf
  | cons p rest ih =>
    obtain ⟨k, g⟩ := p
    rw [findCache] at hf
    by_cases hk : key = k
    · rw [if_pos hk] at hf
      obtain rfl := Option.some.inj hf
      subst hk
      exact List.mem_cons_self _ _
    · rw [if_neg hk] at hf
      exact List.mem_cons_of_mem _ (ih hf)

lemma cacheKeyOf_short {h : List String} (hle : h.length ≤ 5) : cacheKeyOf h = h := by
  rw [cacheKeyOf, if_neg (by omega)]

lemma analyzeFast_short {h : List String} {c : AnalysisCache}
    (hg : goodCache c) (hle : h.length ≤ 5) :
    (analyzeInformationFast h c).1 = analyzeInformationPure h ∧
    goodCache (analyzeInformationFast h c).2 := by
  simp only [analyzeInformationFast, cacheKeyOf_short hle]
  cases hfc : findCache h c with
  | some f =>
    dsimp only
    exact ⟨hg h f (findCache_mem hfc), hg⟩
  | none =>
    dsimp only
    refine ⟨rfl, ?_⟩
    intro k f hmem
    rcases List.mem_cons.mp hmem with heq | htail
    · obtain ⟨rfl, rfl⟩ := Prod.mk.injEq .. ▸ heq
      rfl
    · exact hg k f htail

lemma runAnalyses_good (hs : List (List String)) (c : AnalysisCache)
    (hg : goodCache c) (hshort : ∀ h ∈ hs, h.length ≤ 5) :
    runAnalyses hs c = hs.map analyzeInformationPure := by
  induction hs generalizing c with
  | nil => rfl
  | cons h rest ih =>
    have hh := hshort h (List.mem_cons_self h rest)
    have hfast := analyzeFast_short hg hh
    simp only [runAnalyses, List.map_cons]
    rw [hfast.1]
    exact congrArg _ (ih _ hfast.2 (fun x hx => hshort x (List.mem_cons_of_mem _ hx)))

/-! ## Claim C1 -/

/-- C1 counterexample: the history `["pain", "since yesterday", "ok"]` has a
symptom keyword and a duration keyword and its 3 turns reach the minimum
exchange count (`min_exchanges = 3`), yet `validate` keeps asking and does
not report completeness (completion additionally requires 4 turns). -/
theorem claim1_counterexample :
    (analyzeInformationPure ["pain", "since yesterday", "ok"]).symptoms = true ∧
    (analyzeInformationPure ["pain", "since yesterday", "ok"]).duration = true ∧
    3 ≤ (["pain", "since yesterday", "ok"] : List String).length ∧
    (validate 3 ["pain", "since yesterday", "ok"]).shouldContinueAsking = true ∧
    (validate 3 ["pain", "since yesterday", "ok"]).status ≠ InformationStatus.complete ∧
    (analyzeInformationPure ["pain", "since yesterday", "ok", "fine", "thanks"]).symptoms = true ∧
    (analyzeInformationPure ["pain", "since yesterday", "ok", "fine", "thanks"]).duration = true ∧
    (validate 3 ["pain", "since yesterday", "ok", "fine", "thanks"]).shouldContinueAsking = true := by
  decide

/-- C1 (amended): once symptom and duration keywords are present, at least
4 turns have elapsed, and (when 5 or more turns have elapsed) a
medical-history keyword is also present, `validate` with
`min_exchanges = 3` returns status complete with
`should_continue_asking = False`. -/
theorem claim1_completion_needs_four_turns (h : List String)
    (hs : (analyzeInformationPure h).symptoms = true)
    (hd : (analyzeInformationPure h).duration = true)
    (hn : 4 ≤ h.length)
    (hh : h.length < 5 ∨ (analyzeInformationPure h).history = true) :
    (validate 3 h).status = InformationStatus.complete ∧
    (validate 3 h).shouldContinueAsking = false := by
  simp only [validate, validateTail]
  split_ifs <;> simp_all [flagKeys] <;> omega

/-- C1 witness: the amended statement applied to a concrete 4-turn history
with symptom and duration keywords. -/
theorem claim1_witness :
    (validate 3 ["pain", "since yesterday", "ok", "fine"]).status =
      InformationStatus.complete ∧
    (validate 3 ["pain", "since yesterday", "ok", "fine"]).shouldContinueAsking = false :=
  claim1_completion_needs_four_turns ["pain", "since yesterday", "ok", "fine"]
    (by decide) (by decide) (by decide) (Or.inl (by decide))

/-! ## Claim C2 -/

/-- C2: for every conversation history strictly shorter than the minimum
exchange count, `validate` returns `should_continue_asking = True` with
status insufficient, regardless of the content of the messages. -/
theorem claim2_below_minimum_always_continue (minExchanges : Nat)
    (h : List String) (hlt : h.length < minExchanges) :
    (validate minExchanges h).shouldContinueAsking = true ∧
    (validate minExchanges h).status = InformationStatus.insufficient := by
  simp only [validate]
  rw [if_pos hlt]
  exact ⟨rfl, rfl⟩

/-- C2 witness: a content-rich 2-message history below the backend minimum
of 3 still yields continue/insufficient. -/
theorem claim2_witness :
    (validate 3 ["severe chest pain since yesterday", "worse today"]).shouldContinueAsking = true ∧
    (validate 3 ["severe chest pain since yesterday", "worse today"]).status =
      InformationStatus.insufficient :=
  claim2_below_minimum_always_continue 3
    ["severe chest pain since yesterday", "worse today"] (by decide)

/-! ## Claim C3 -/

/-- C3 failing input: the 4-turn history mentions pain, has symptom and
duration keywords, and has neither a severity nor a location keyword, yet
`validate` returns complete with `should_continue_asking = False` and an
empty missing category.  The `has_pain` test of rule 4
(`'pain' in found_info`) looks among the dict keys
`symptoms/duration/severity/location/history` and is identically false, so
the severity-or-location branch its comment and the spec describe is
unreachable. -/
theorem claim3_pain_rule_dead_at_failing_input :
    containsSub (lowerChars (joinSep " "
      ["I feel pain", "it started two days ago", "hmm", "okay"])) "pain".toList = true ∧
    (analyzeInformationPure
      ["I feel pain", "it started two days ago", "hmm", "okay"]).severity = false ∧
    (analyzeInformationPure
      ["I feel pain", "it started two days ago", "hmm", "okay"]).location = false ∧
    (flagKeys.contains "pain" || flagKeys.contains "ache") = false ∧
    (validate 3 ["I feel pain", "it started two days ago", "hmm", "okay"]).shouldContinueAsking = false ∧
    (validate 3 ["I feel pain", "it started two days ago", "hmm", "okay"]).status =
      InformationStatus.complete ∧
    (validate 3 ["I feel pain", "it started two days ago", "hmm", "okay"]).missingCategory = "" := by
  decide

/-! ## Claim C4 -/

/-- C4: whenever the joined conversation text lacks a symptom keyword or
lacks a duration keyword, `validate` returns
`should_continue_asking = True`, for every minimum exchange count. -/
theorem claim4_missing_symptom_or_duration_forces_continue
    (minExchanges : Nat) (h : List String)
    (hmiss : (analyzeInformationPure h).symptoms = false ∨
             (analyzeInformationPure h).duration = false) :
    (validate minExchanges h).shouldContinueAsking = true := by
  simp only [validate, validateTail]
  split_ifs <;> simp_all

/-- C4 witness: a 3-message history with no symptom keyword. -/
theorem claim4_witness :
    (validate 3 ["hello", "there", "friend"]).shouldContinueAsking = true :=
  claim4_missing_symptom_or_duration_forces_continue 3
    ["hello", "there", "friend"] (Or.inl (by decide))

/-! ## Claim C5 -/

/-- C5: `DoctorAgent.generate_report` returns a non-empty string for every
conversation history (including the empty one) and every outcome of the
MedGemma attempt; in particular the template fallback always yields a
non-empty report, so the function (total here) never propagates a
failure. -/
theorem claim5_report_never_empty (aiReport : Option String) (h : List String) :
    generateReport aiReport h ≠ "" := by
  cases aiReport with
  | none => exact generateTemplateReport_ne_empty h
  | some r =>
    by_cases hr : r = ""
    · simpa [generateReport, hr] using generateTemplateReport_ne_empty h
    · simp only [generateReport, if_neg hr]
      exact hr

/-! ## Claim C6 -/

/-- C6 counterexample: with a single message the validator emits the
missing category `"duration of symptoms"`, which is not a key of
`QUESTION_TEMPLATES`. -/
theorem claim6_counterexample :
    (validate 3 ["hi"]).missingCategory = "duration of symptoms" ∧
    questionTemplateKeys.contains "duration of symptoms" = false := by
  decide

/-- C6 (amended): every missing category `validate` can emit lies in a
fixed 14-element list, and of that list only `symptoms`, `duration` and
`medical_history` are keys of the question agent's static fallback table;
the composite and suggestion labels (for example `duration of symptoms`,
`clinical_context`, `medical history` spelled with a space) have no
template. -/
theorem claim6_emittable_categories_vs_templates :
    (∀ (minExchanges : Nat) (h : List String),
      (validate minExchanges h).missingCategory ∈ validatorEmittableCategories) ∧
    validatorEmittableCategories.filter (fun c => questionTemplateKeys.contains c) =
      ["symptoms", "duration", "medical_history"] := by
  constructor
  · intro minExchanges h
    simp only [validate, validateTail]
    split_ifs <;>
      first
        | exact absurd ‹(flagKeys.contains "pain" || flagKeys.contains "ache") = true›
            (by decide)
        | exact suggestMissing_mem_emittable _ _
        | simp [validatorEmittableCategories]
  · decide

/-! ## Claim C7 -/

/-- C7 counterexample: the forced progression of
`TransformerValidationAgent.evaluate_completeness` repeats a category.  In
the AI branch a repeated category outside the fixed list (here
`"location"`) is emitted unchanged, and in the rule-based branch the
two-call trace at 7 then 8 exchanges emits `"none"` twice in a row (the
final list element rotates to itself). -/
theorem claim7_counterexample :
    forceProgressionAI "location" (some "location") 3 = "location" ∧
    (mistralRuleStep 7 none).1 = "none" ∧
    (mistralRuleStep 8 (mistralRuleStep 7 none).2).1 = "none" := by
  decide

/-- C7 (amended): when the repeated category is one of the first three
entries of the fixed list (`symptom details`, `duration and severity`,
`medical history`) and more than 2 exchanges have passed, both branches of
the forced progression rotate to a different category instead of
repeating; a repeated category outside the list, or the final entry
`none`, is emitted unchanged. -/
theorem claim7_rotation_for_listed_categories (m : String)
    (lastCategory : Option String) (n : Nat)
    (hm : m ∈ ["symptom details", "duration and severity", "medical history"])
    (hl : lastCategory = some m) (hn : 2 < n) :
    forceProgressionAI m lastCategory n ≠ m ∧
    forceProgressionRule m lastCategory n ≠ m := by
  subst hl
  fin_cases hm <;>
    simp only [forceProgressionAI, forceProgressionRule, hn, and_true, if_pos,
      Option.some.injEq] <;>
    decide

/-- C7 witness: the amended rotation applied to `"symptom details"` at
3 exchanges. -/
theorem claim7_witness :
    forceProgressionAI "symptom details" (some "symptom details") 3 ≠ "symptom details" ∧
    forceProgressionRule "symptom details" (some "symptom details") 3 ≠ "symptom details" :=
  claim7_rotation_for_listed_categories "symptom details"
    (some "symptom details") 3 (by decide) rfl (by decide)

/-! ## Claim C8 -/

/-- C8: when no JSON object can be extracted from the model response, or
parsing the extracted object fails, `_ai_validate` returns the default
fallback result `should_continue_asking = True`, missing category
`additional information`, confidence 0.5, without propagating a failure. -/
theorem claim8_ai_fallback_on_unparseable
    (parse : String → Option ParsedValidation) (response : String)
    (hfail : ∀ m, extractJsonObject response = some m → parse m = none) :
    aiValidateResponse parse response =
      ⟨InformationStatus.gathering, true, "additional information", 1/2,
       "Continue gathering information"⟩ := by
  simp only [aiValidateResponse]
  cases hext : extractJsonObject response with
  | none => rfl
  | some m =>
    dsimp only
    rw [hfail m hext]
    rfl

/-- C8 witness: a response with no braces under a parser that always
fails. -/
theorem claim8_witness :
    aiValidateResponse (fun _ => none) "The model could not produce JSON" =
      ⟨InformationStatus.gathering, true, "additional information", 1/2,
       "Continue gathering information"⟩ :=
  claim8_ai_fallback_on_unparseable (fun _ => none)
    "The model could not produce JSON" (fun _ _ => rfl)

/-! ## Claim C9 -/

/-- C9: every result of `validate` has `should_continue_asking = False`
exactly when its status is complete, and an empty missing category exactly
when its status is complete. -/
theorem claim9_result_invariant (minExchanges : Nat) (h : List String) :
    ((validate minExchanges h).shouldContinueAsking = false ↔
      (validate minExchanges h).status = InformationStatus.complete) ∧
    ((validate minExchanges h).missingCategory = "" ↔
      (validate minExchanges h).status = InformationStatus.complete) := by
  simp only [validate, validateTail]
  split_ifs <;> simp_all [suggestMissing_ne_empty]

/-! ## Claim C10 -/

/-- C10 counterexample: on one validator instance, analysing
`["a","a","a","a","a"]` and then `["pain","a","a","a","a","a"]` returns
the first history's cached flags for the second (the cache key only covers
the last 5 messages), so the cached analysis reports no symptom keyword
although the pure regex computation over the full join finds one. -/
theorem claim10_counterexample :
    runAnalyses [["a","a","a","a","a"], ["pain","a","a","a","a","a"]] [] ≠
      [["a","a","a","a","a"], ["pain","a","a","a","a","a"]].map analyzeInformationPure ∧
    (analyzeInformationFast ["pain","a","a","a","a","a"]
        (analyzeInformationFast ["a","a","a","a","a"] []).2).1.symptoms = false ∧
    (analyzeInformationPure ["pain","a","a","a","a","a"]).symptoms = true := by
  decide

/-- C10 (amended): for every sequence of calls on one instance in which
each queried history has at most 5 messages (so the cache key determines
the whole history), the cached analysis agrees with the pure uncached
computation on every call. -/
theorem claim10_cache_correct_for_short_histories
    (hs : List (List String)) (hshort : ∀ h ∈ hs, h.length ≤ 5) :
    runAnalyses hs [] = hs.map analyzeInformationPure :=
  runAnalyses_good hs [] (fun _ _ hmem => absurd hmem (List.not_mem_nil _)) hshort

/-- C10 witness: two repeated short calls agree with the pure analysis. -/
theorem claim10_witness :
    runAnalyses [["pain"], ["pain"]] [] =
      [["pain"], ["pain"]].map analyzeInformationPure :=
  claim10_cache_correct_for_short_histories [["pain"], ["pain"]] (by decide)

end MedAssist
